import Mathlib

/-!
Verification development for the write-coalescing and access-coordination
layer of the habit-tracking repository: a shallow embedding in Lean 4 of

  - ConnectionPool (src/utils/batchProcessor segment, acquire / release /
    the 5 s acquisition timeout handler),
  - BatchProcessor (addOperation / flush / shutdown with the retry loop),
  - the TTL cache of OptimizedSupabaseStorage (getCachedData / setCachedData),
  - the read paths getChains / getCompletionHistory (their query-error branch),
  - StorageDebouncer (src/hooks/useDebounce.ts, queueOperation /
    executeOperation and timer cancellation),

together with theorems settling the specification claims about them.
Timestamps and durations are modelled as Nat milliseconds (JS Date.now()),
JS Maps as association lists, and the asynchronous parts as explicit state
transformers: the processor / store collaborator is an oracle giving the
outcome of each of its invocations.
-/

namespace RC

/-! ## Connection pool

Source: class ConnectionPool.  State: activeConnections (number),
maxConnections = 10, waitingQueue: an array of JS closures.

The waitingQueue in the source holds functions.  Two different function
values occur around acquire(): the promise resolve function of a waiter and
the wrapper closure that acquire pushes onto the queue
(waitingQueue.push(() => { clearTimeout(timeoutId); this.activeConnections++;
resolve(() => this.release()); })).  The timeout handler searches the queue
with waitingQueue.findIndex(r => r === resolve), i.e. by JS reference
equality against the resolve function.  We model the two kinds of function
value by a two-constructor type tagged with the waiter id; JS reference
equality of distinct function objects is equality of these tags, so
resolver i = wrapper j never holds, exactly as resolve === pushedClosure
never holds in the source. -/

/-- Function values that occur around the waiting queue of the pool:
the promise resolve function of waiter id, and the wrapper closure pushed
by acquire for waiter id. -/
inductive WaitEntry : Type
  | resolver (id : Nat)
  | wrapper (id : Nat)
  deriving DecidableEq, Repr

/-- State of ConnectionPool: activeConnections and waitingQueue. -/
structure ConnectionPool : Type where
  activeConnections : Nat
  waitingQueue : List WaitEntry
  deriving DecidableEq, Repr

/-- Source: private readonly maxConnections = 10. -/
def maxConnections : Nat := 10

/-- Result of an acquire call: a token granted synchronously, or the caller
queued as a waiter. -/
inductive AcquireOutcome : Type
  | granted
  | queued
  deriving DecidableEq, Repr

/-- ConnectionPool.acquire for the caller with waiter id wid: below the
ceiling it increments activeConnections and resolves at once; otherwise it
arms a 5 s timeout and pushes the wrapper closure onto waitingQueue. -/
def acquire (p : ConnectionPool) (wid : Nat) : AcquireOutcome × ConnectionPool :=
  if p.activeConnections < maxConnections then
    (AcquireOutcome.granted, { p with activeConnections := p.activeConnections + 1 })
  else
    (AcquireOutcome.queued, { p with waitingQueue := p.waitingQueue ++ [WaitEntry.wrapper wid] })

/-- What the 5 s timeout callback observably does when it fires. -/
inductive TimeoutEffect : Type
  | rejectedPoolTimeout
  | noEffect
  deriving DecidableEq, Repr

/-- The body of the setTimeout callback armed by acquire for waiter wid:
const index = this.waitingQueue.findIndex(r => r === resolve);
if (index >= 0) { this.waitingQueue.splice(index, 1);
reject(new Error('Connection pool timeout')); }.
The search compares queue entries with the resolve function of wid. -/
def onAcquireTimeout (p : ConnectionPool) (wid : Nat) : ConnectionPool × TimeoutEffect :=
  match p.waitingQueue.findIdx? (fun r => r == WaitEntry.resolver wid) with
  | some i => ({ p with waitingQueue := p.waitingQueue.eraseIdx i }, TimeoutEffect.rejectedPoolTimeout)
  | none => (p, TimeoutEffect.noEffect)

/-- ConnectionPool.release: decrement activeConnections; if the waiting
queue is non-empty, shift its first element and run it (the wrapper
increments activeConnections back and resolves its waiter's promise).
The second component reports which waiter, if any, was granted. -/
def release (p : ConnectionPool) : ConnectionPool × Option WaitEntry :=
  match p.waitingQueue with
  | [] => ({ activeConnections := p.activeConnections - 1, waitingQueue := [] }, none)
  | next :: rest =>
      ({ activeConnections := p.activeConnections - 1 + 1, waitingQueue := rest }, some next)

/-- Pool invariant: the active count never exceeds the ceiling, and waiters
exist only while the pool is saturated. -/
def poolInv (p : ConnectionPool) : Prop :=
  p.activeConnections ≤ maxConnections ∧
    (p.waitingQueue ≠ [] → p.activeConnections = maxConnections)

/-- The pool reached by n successive acquire calls (waiter ids 1..n)
starting from the fresh singleton pool. -/
def acquireAll : Nat → ConnectionPool
  | 0 => { activeConnections := 0, waitingQueue := [] }
  | n + 1 => (acquire (acquireAll n) (n + 1)).2

/-! ## TTL cache

Source: the cache field of OptimizedSupabaseStorage, a Map from string key
to record data / timestamp / ttl, with getCachedData and setCachedData.
JS Maps are modelled as association lists; Map.set replaces in place,
Map.get scans for the key. -/

/-- Association-list update with JS Map.set semantics: replace the entry in
place when the key is present, append otherwise. -/
def mapSet {κ : Type} {α : Type} [DecidableEq κ] : List (κ × α) → κ → α → List (κ × α)
  | [], k, v => [(k, v)]
  | (k0, v0) :: rest, k, v =>
      if k0 = k then (k, v) :: rest else (k0, v0) :: mapSet rest k v

/-- Association-list lookup with JS Map.get semantics. -/
def mapGet {κ : Type} {α : Type} [DecidableEq κ] : List (κ × α) → κ → Option α
  | [], _ => none
  | (k0, v0) :: rest, k => if k0 = k then some v0 else mapGet rest k

/-- Association-list removal with JS Map.delete semantics (the key occurs at
most once in a Map, so removing every occurrence is the same removal). -/
def mapDelete {κ : Type} {α : Type} [DecidableEq κ] (m : List (κ × α)) (k : κ) : List (κ × α) :=
  m.filter (fun p => p.1 ≠ k)

/-- A cache entry as stored by setCachedData: data, timestamp, ttl. -/
structure CacheEntry (V : Type) : Type where
  data : V
  timestamp : Nat
  ttl : Nat
  deriving DecidableEq, Repr

/-- The cache map of OptimizedSupabaseStorage for values of type V. -/
def CMap (V : Type) : Type := List (String × CacheEntry V)

/-- OptimizedSupabaseStorage.getCachedData(key, ttl) evaluated at time now:
return the stored data when the entry exists and now - timestamp < ttl,
otherwise null.  The method only reads the map: it contains no delete, so
the expired entry stays in the cache (lazy expiry). -/
def getCachedData {V : Type} (cache : CMap V) (key : String) (ttl : Nat) (now : Nat) :
    Option V :=
  match mapGet cache key with
  | some e => if (now : Int) - (e.timestamp : Int) < (ttl : Int) then some e.data else none
  | none => none

/-- OptimizedSupabaseStorage.setCachedData(key, data, ttl) at time now. -/
def setCachedData {V : Type} (cache : CMap V) (key : String) (data : V) (ttl : Nat)
    (now : Nat) : CMap V :=
  mapSet cache key { data := data, timestamp := now, ttl := ttl }

/-! ## Batch processor

Source: class BatchProcessor of the batchProcessor segment.  The
processor collaborator (the Store bulk call) is modelled by an oracle
succ : Nat -> Bool giving the outcome of its i-th invocation inside one
flush (counting from 0); the instrumentation of each flush (the snapshot
handed to the processor, the number of processor calls, the backoff delays
slept, the console.error report, and what the flush promise delivers to the
caller) is collected in a FlushLog. -/

/-- The operation discriminator 'insert' | 'update' | 'delete'. -/
inductive OpKind : Type
  | insert
  | update
  | delete
  deriving DecidableEq, Repr

/-- interface BatchOperation of the source: id, data, operation, timestamp. -/
structure BatchOperation (T : Type) : Type where
  id : String
  data : T
  operation : OpKind
  timestamp : Nat
  deriving DecidableEq, Repr

/-- interface BatchConfig: maxBatchSize, maxWaitTime (ms), retryAttempts. -/
structure BatchConfig : Type where
  maxBatchSize : Nat
  maxWaitTime : Nat
  retryAttempts : Nat
  deriving DecidableEq, Repr

/-- const DEFAULT_CONFIG = { maxBatchSize: 50, maxWaitTime: 1000, retryAttempts: 3 }. -/
def DEFAULT_CONFIG : BatchConfig :=
  { maxBatchSize := 50, maxWaitTime := 1000, retryAttempts := 3 }

/-- Mutable state of a BatchProcessor: the queue array, whether a flush
timer is armed (flushTimer != null), and the isProcessing flag. -/
structure BatchState (T : Type) : Type where
  queue : List (BatchOperation T)
  flushTimer : Bool
  isProcessing : Bool
  deriving DecidableEq, Repr

/-- Observable outcome of the retry while-loop inside flush: how many times
the processor was invoked, the backoff delays slept (ms, in order), whether
an invocation succeeded, and whether the exhaustion branch ran (the branch
attempts >= retryAttempts containing console.error and the re-queueing). -/
structure RetryOutcome : Type where
  calls : Nat
  delays : List Nat
  success : Bool
  exhausted : Bool
  deriving DecidableEq, Repr

/-- The retry while-loop of flush: while (attempts < limit) try the
processor; break on success; otherwise attempts++, and either give up
(attempts >= limit) or sleep 2 ^ attempts seconds and loop.  fuel bounds
the iteration count; fuel = limit suffices since every iteration
increments attempts. -/
def retryGo (succ : Nat → Bool) (limit : Nat) : Nat → Nat → RetryOutcome
  | 0, _ => { calls := 0, delays := [], success := false, exhausted := false }
  | fuel + 1, attempts =>
    if attempts < limit then
      if succ attempts then
        { calls := 1, delays := [], success := true, exhausted := false }
      else
        if limit ≤ attempts + 1 then
          { calls := 1, delays := [], success := false, exhausted := true }
        else
          let r := retryGo succ limit fuel (attempts + 1)
          { calls := r.calls + 1, delays := 2 ^ (attempts + 1) * 1000 :: r.delays,
            success := r.success, exhausted := r.exhausted }
    else { calls := 0, delays := [], success := false, exhausted := false }

/-- The retry loop of one flush, started at attempts = 0. -/
def runRetries (succ : Nat → Bool) (limit : Nat) : RetryOutcome :=
  retryGo succ limit limit 0

/-- Instrumentation of one flush call: the snapshot handed to the processor
(none when the guard returned before a snapshot was taken), the number of
processor invocations, the backoff delays, whether the failed snapshot was
re-queued, how many console.error reports were emitted, and the error the
flush promise delivers to its caller.  flush catches every processor error
inside the loop and never re-throws, so callerError is none on every path:
the source reports exhaustion only through console.error. -/
structure FlushLog (T : Type) : Type where
  snapshot : Option (List (BatchOperation T))
  calls : Nat
  delays : List Nat
  requeued : Bool
  consoleErrors : Nat
  callerError : Option String
  deriving DecidableEq, Repr

/-- The log of a flush that returned at the guard. -/
def emptyFlushLog (T : Type) : FlushLog T :=
  { snapshot := none, calls := 0, delays := [], requeued := false,
    consoleErrors := 0, callerError := none }

/-- BatchProcessor.flush.  Guard: if (this.isProcessing || this.queue.length
=== 0) return.  Otherwise set isProcessing, clear the flush timer, snapshot
the queue into operations and clear the queue, run the retry loop, and on
exhaustion unshift the snapshot back onto the live queue; finally clear
isProcessing.  The parameter during holds the operations that addOperation
calls append to this.queue while this flush is awaiting the processor (they
land after the queue was cleared and before the possible unshift); such
calls may also re-arm the flush timer, which no claim here depends on. -/
def flush {T : Type} (cfg : BatchConfig) (succ : Nat → Bool)
    (during : List (BatchOperation T)) (s : BatchState T) :
    BatchState T × FlushLog T :=
  if s.isProcessing || s.queue.isEmpty then
    (s, emptyFlushLog T)
  else
    let operations := s.queue
    let r := runRetries succ cfg.retryAttempts
    let q := if r.exhausted then operations ++ during else during
    ({ queue := q, flushTimer := false, isProcessing := false },
     { snapshot := some operations, calls := r.calls, delays := r.delays,
       requeued := r.exhausted,
       consoleErrors := if r.exhausted then 1 else 0, callerError := none })

/-- The queue mutation of addOperation: this.queue = this.queue.filter(op =>
op.id !== id); this.queue.push(batchOp) — remove every pending operation
with the same identity, then append the new one. -/
def enqueueQueue {T : Type} (q : List (BatchOperation T)) (id : String) (data : T)
    (operation : OpKind) (now : Nat) : List (BatchOperation T) :=
  let batchOp : BatchOperation T :=
    { id := id, data := data, operation := operation, timestamp := now }
  q.filter (fun op => op.id ≠ id) ++ [batchOp]

/-- BatchProcessor.addOperation(id, data, operation) at time now: build the
BatchOperation, de-duplicate and push, then either await flush() when the
queue length reached maxBatchSize, or scheduleFlush() (arm the timer if not
already armed).  The returned FlushLog records any processor activity that
happened before addOperation's promise settles. -/
def addOperation {T : Type} (cfg : BatchConfig) (succ : Nat → Bool) (id : String)
    (data : T) (operation : OpKind) (now : Nat) (s : BatchState T) :
    BatchState T × FlushLog T :=
  let q1 := enqueueQueue s.queue id data operation now
  let s1 : BatchState T := { s with queue := q1 }
  if cfg.maxBatchSize ≤ q1.length then
    flush cfg succ [] s1
  else
    ({ s1 with flushTimer := true }, emptyFlushLog T)

/-- BatchProcessor.shutdown: clearFlushTimer(); await flush(). -/
def shutdown {T : Type} (cfg : BatchConfig) (succ : Nat → Bool) (s : BatchState T) :
    BatchState T × FlushLog T :=
  flush cfg succ [] { s with flushTimer := false }

/-! ## Debounced dispatcher

Source: class StorageDebouncer of src/hooks/useDebounce.ts.  Its two Maps
(operations and timers) are keyed by the operation type itself (const key =
type).  A setTimeout handle is modelled by a Nat id; clearTimeout adds the
id to the cancelled set, and a timer callback runs only if its id was never
cleared.  The switch in executeOperation dispatches operation.data to the
storage method selected by operation.type; the dispatch log records the
(type, data) pairs of those calls in order. -/

/-- The operation-type union of StorageOperation. -/
inductive StorageOpType : Type
  | chains
  | history
  | sessions
  | activeSession
  deriving DecidableEq, Repr

/-- The per-type delay table of StorageDebouncer (ms). -/
def debounceDelay : StorageOpType → Nat
  | StorageOpType.chains => 1000
  | StorageOpType.history => 500
  | StorageOpType.sessions => 800
  | StorageOpType.activeSession => 200

/-- interface StorageOperation: type, data, timestamp. -/
structure StorageOperation (D : Type) : Type where
  type : StorageOpType
  data : D
  timestamp : Nat
  deriving DecidableEq, Repr

/-- State of a StorageDebouncer, together with the cancelled-timer set and
the dispatch log used to observe its behaviour. -/
structure DebouncerState (D : Type) : Type where
  operations : List (StorageOpType × StorageOperation D)
  timers : List (StorageOpType × Nat)
  cancelled : List Nat
  dispatched : List (StorageOpType × D)
  deriving DecidableEq, Repr

/-- The freshly constructed StorageDebouncer. -/
def initDebouncer (D : Type) : DebouncerState D :=
  { operations := [], timers := [], cancelled := [], dispatched := [] }

/-- StorageDebouncer.queueOperation(type, data) at time now, arming the
fresh setTimeout handle tid: store the latest operation under the type
(overwriting any previous one), clear the existing timer for the type if
any, and install the new timer. -/
def queueOperation {D : Type} (s : DebouncerState D) (ty : StorageOpType) (data : D)
    (now : Nat) (tid : Nat) : DebouncerState D :=
  let ops := mapSet s.operations ty { type := ty, data := data, timestamp := now }
  let cancelled :=
    match mapGet s.timers ty with
    | some old => old :: s.cancelled
    | none => s.cancelled
  { s with operations := ops, timers := mapSet s.timers ty tid, cancelled := cancelled }

/-- StorageDebouncer.executeOperation(key): read the queued operation (and
return at once when there is none), dispatch its data to the storage method
selected by its type, then delete the operation and its timer entry. -/
def executeOperation {D : Type} (s : DebouncerState D) (ty : StorageOpType) :
    DebouncerState D :=
  match mapGet s.operations ty with
  | none => s
  | some op =>
      { s with dispatched := s.dispatched ++ [(op.type, op.data)],
               operations := mapDelete s.operations ty,
               timers := mapDelete s.timers ty }

/-- Firing of the setTimeout callback with handle tid armed for type ty: a
cleared timer never runs; otherwise the callback is executeOperation(ty). -/
def fireTimer {D : Type} (s : DebouncerState D) (ty : StorageOpType) (tid : Nat) :
    DebouncerState D :=
  if tid ∈ s.cancelled then s else executeOperation s ty

/-! ## Read paths of OptimizedSupabaseStorage

getChains and getCompletionHistory share one shape after the current user
and the cache were consulted and a pool connection acquired: run the store
query; if it reported an error, log it with console.error and return the
empty list; otherwise transform the rows, cache the result under the key
with the ttl, and return it.  The store outcome is the qres parameter; the
row-to-entity transformation (transformChainsFromDB, or the inline map of
getCompletionHistory) is the transform parameter.  The Bool in the result
records whether console.error ran. -/

/-- An error value as delivered by the store collaborator. -/
structure StoreError : Type where
  message : String
  deriving DecidableEq, Repr

/-- The shared post-acquire body of getChains (lines with the chains query)
and getCompletionHistory (the completion-history query): error branch logs
and returns [], success branch transforms, caches and returns. -/
def readQueryStep {R : Type} {X : Type} (transform : List R → List X)
    (cache : CMap (List X)) (key : String) (ttl : Nat) (now : Nat)
    (qres : Except StoreError (List R)) : List X × CMap (List X) × Bool :=
  match qres with
  | Except.error _ => ([], cache, true)
  | Except.ok rows =>
      let out := transform rows
      (out, setCachedData cache key out ttl now, false)

/-- OptimizedSupabaseStorage.getChains: no user gives []; a fresh cached
value under chains_(user id) with the 2-minute ttl is returned as is;
otherwise the query runs and its outcome is handled by readQueryStep.
The result also carries the updated cache and the console.error flag. -/
def getChains {R : Type} {X : Type} (transform : List R → List X)
    (user : Option String) (cache : CMap (List X)) (now : Nat)
    (qres : Except StoreError (List R)) : List X × CMap (List X) × Bool :=
  match user with
  | none => ([], cache, false)
  | some uid =>
      let cacheKey := "chains_" ++ uid
      match getCachedData cache cacheKey (2 * 60 * 1000) now with
      | some v => (v, cache, false)
      | none => readQueryStep transform cache cacheKey (2 * 60 * 1000) now qres

/-- OptimizedSupabaseStorage.getCompletionHistory(limit, offset): same
shape as getChains with key history_(user id)_(limit)_(offset) and the
5-minute ttl. -/
def getCompletionHistory {R : Type} {X : Type} (transform : List R → List X)
    (user : Option String) (limit : Nat) (offset : Nat) (cache : CMap (List X))
    (now : Nat) (qres : Except StoreError (List R)) :
    List X × CMap (List X) × Bool :=
  match user with
  | none => ([], cache, false)
  | some uid =>
      let cacheKey := "history_" ++ uid ++ "_" ++ toString limit ++ "_" ++ toString offset
      match getCachedData cache cacheKey (5 * 60 * 1000) now with
      | some v => (v, cache, false)
      | none => readQueryStep transform cache cacheKey (5 * 60 * 1000) now qres

/-! ## Helper lemmas -/

/-- Looking up the key just written by mapSet yields the written value. -/
theorem mapGet_mapSet {κ α : Type} [DecidableEq κ] (m : List (κ × α)) (k : κ) (v : α) :
    mapGet (mapSet m k v) k = some v := by
  induction m with
  | nil => simp [mapSet, mapGet]
  | cons hd tl ih =>
      obtain ⟨k0, v0⟩ := hd
      by_cases hk : k0 = k <;> simp [mapSet, mapGet, hk, ih]

/-- The first n acquire calls on the fresh pool are all granted and leave
the pool with n active connections and no waiters, for n up to the ceiling. -/
theorem acquireAll_below_ceiling : ∀ k, k ≤ maxConnections →
    acquireAll k = { activeConnections := k, waitingQueue := [] } := by
  intro k
  induction k with
  | zero => intro _; rfl
  | succ n ih =>
      intro h
      have hn : n ≤ maxConnections := Nat.le_of_succ_le h
      have hlt : n < maxConnections := h
      simp [acquireAll, ih hn, acquire, hlt]

/-- Every entry ever pushed onto the waiting queue is a wrapper closure. -/
theorem acquire_pushes_wrapper (p : ConnectionPool) (wid : Nat)
    (h : ∀ e ∈ p.waitingQueue, ∃ i, e = WaitEntry.wrapper i) :
    ∀ e ∈ (acquire p wid).2.waitingQueue, ∃ i, e = WaitEntry.wrapper i := by
  intro e he
  by_cases hc : p.activeConnections < maxConnections
  · exact h e (by simpa [acquire, hc] using he)
  · simp only [acquire, hc, if_neg, ite_false, List.mem_append] at he
    rcases he with h1 | h2
    · exact h e h1
    · exact ⟨wid, by simpa using h2⟩

/-- On a queue containing only wrapper closures, the timeout handler's
search for the resolve function fails and the handler does nothing. -/
theorem onAcquireTimeout_noEffect (p : ConnectionPool) (wid : Nat)
    (h : ∀ e ∈ p.waitingQueue, ∃ i, e = WaitEntry.wrapper i) :
    onAcquireTimeout p wid = (p, TimeoutEffect.noEffect) := by
  have hnone : p.waitingQueue.findIdx? (fun r => r == WaitEntry.resolver wid) = none := by
    rw [List.findIdx?_eq_none_iff]
    intro e he
    obtain ⟨i, hi⟩ := h e he
    subst hi
    simp
  simp [onAcquireTimeout, hnone]

/-! ## Claim C1 -/

/-- The saturated pool with one queued waiter: ten granted acquisitions
followed by an eleventh acquire call. -/
def poolSaturatedWithWaiter : ConnectionPool :=
  (acquire (acquireAll maxConnections) 11).2

/-- C1: the claim states that an acquire on the saturated pool whose token
does not arrive within 5 seconds fails with PoolTimeout, is removed from
the waiting queue, and is never granted a token afterward.  The code
contradicts this: the timeout callback searches the waiting queue for the
promise resolve function (findIndex(r => r === resolve)) but the queue
holds the wrapper closures pushed by acquire, never the resolve function,
so the search always misses, nothing is removed, no rejection happens, and
a later release still grants the timed-out waiter.  This theorem evaluates
the model at the failing input: the eleventh acquire is queued, the fired
timeout has no effect and leaves the waiter queued, and a subsequent
release grants precisely that waiter. -/
theorem c1_pool_timeout_never_fires :
    (acquire (acquireAll maxConnections) 11).1 = AcquireOutcome.queued ∧
    poolSaturatedWithWaiter.waitingQueue = [WaitEntry.wrapper 11] ∧
    onAcquireTimeout poolSaturatedWithWaiter 11 =
      (poolSaturatedWithWaiter, TimeoutEffect.noEffect) ∧
    (release poolSaturatedWithWaiter).2 = some (WaitEntry.wrapper 11) := by
  decide

/-! ## Claim C6 -/

/-- C6: the pool never admits more than maxConnections concurrent holders.
The invariant active <= maxConnections (with waiters only at saturation) is
preserved by acquire and by release; every acquire below the ceiling is
granted synchronously; the first N <= maxConnections acquisitions on the
fresh pool all succeed without waiting; the next call is queued at the tail
of the waiting queue; and release grants the head, i.e. the oldest waiter,
first. -/
theorem c6_pool_admission :
    (∀ p wid, poolInv p → poolInv (acquire p wid).2) ∧
    (∀ p, poolInv p → poolInv (release p).1) ∧
    (∀ p wid, p.activeConnections < maxConnections →
      (acquire p wid).1 = AcquireOutcome.granted) ∧
    (∀ k, k ≤ maxConnections →
      acquireAll k = { activeConnections := k, waitingQueue := [] }) ∧
    (∀ k, k < maxConnections →
      (acquire (acquireAll k) (k + 1)).1 = AcquireOutcome.granted) ∧
    ((acquire (acquireAll maxConnections) (maxConnections + 1)).1 = AcquireOutcome.queued) ∧
    (∀ p wid, ¬ p.activeConnections < maxConnections →
      (acquire p wid).2.waitingQueue = p.waitingQueue ++ [WaitEntry.wrapper wid]) ∧
    (∀ p w ws, p.waitingQueue = w :: ws →
      (release p).2 = some w ∧ (release p).1.waitingQueue = ws) := by
  refine ⟨?_, ?_, ?_, acquireAll_below_ceiling, ?_, by decide, ?_, ?_⟩
  · intro p wid hp
    obtain ⟨hle, hq⟩ := hp
    by_cases hc : p.activeConnections < maxConnections
    · refine ⟨by simpa [acquire, hc] using Nat.succ_le_of_lt hc, ?_⟩
      intro hne
      have : p.waitingQueue ≠ [] := by simpa [acquire, hc] using hne
      exact absurd (hq this) (Nat.ne_of_lt hc)
    · have heq : p.activeConnections = maxConnections := Nat.le_antisymm hle (Nat.le_of_not_lt hc)
      exact ⟨by simpa [acquire, hc] using hle, fun _ => by simpa [acquire, hc] using heq⟩
  · intro p hp
    obtain ⟨hle, hq⟩ := hp
    match hw : p.waitingQueue with
    | [] =>
        refine ⟨?_, ?_⟩
        · simpa [release, hw] using Nat.le_trans (Nat.sub_le _ _) hle
        · intro hne
          simp [release, hw] at hne
    | w :: ws =>
        have hsat : p.activeConnections = maxConnections := hq (by simp [hw])
        refine ⟨?_, fun _ => ?_⟩ <;>
          simp [release, hw, hsat, maxConnections]
  · intro p wid hc
    simp [acquire, hc]
  · intro k hk
    rw [acquireAll_below_ceiling k (Nat.le_of_lt hk)]
    simp [acquire, hk]
  · intro p wid hc
    simp [acquire, hc]
  · intro p w ws hw
    constructor <;> simp [release, hw]

/-- A pool with three active connections and no waiters. -/
def poolThreeActive : ConnectionPool := { activeConnections := 3, waitingQueue := [] }

/-- A saturated pool with one queued waiter. -/
def poolTenOneWaiter : ConnectionPool :=
  { activeConnections := 10, waitingQueue := [WaitEntry.wrapper 11] }

/-- A saturated pool with two queued waiters. -/
def poolTenTwoWaiters : ConnectionPool :=
  { activeConnections := 10, waitingQueue := [WaitEntry.wrapper 11, WaitEntry.wrapper 12] }

/-- Witness for C6 at concrete inputs: the invariant-preservation parts at
a pool with three active connections, the immediate grant at that pool, the
FIFO grant at a saturated pool with two waiters. -/
theorem c6_witness :
    poolInv (acquire poolThreeActive 7).2 ∧
    poolInv (release poolTenOneWaiter).1 ∧
    (acquire poolThreeActive 7).1 = AcquireOutcome.granted ∧
    acquireAll 10 = { activeConnections := 10, waitingQueue := [] } ∧
    (acquire (acquireAll 9) 10).1 = AcquireOutcome.granted ∧
    (acquire poolTenOneWaiter 12).2.waitingQueue =
      [WaitEntry.wrapper 11] ++ [WaitEntry.wrapper 12] ∧
    (release poolTenTwoWaiters).2 = some (WaitEntry.wrapper 11) :=
  ⟨c6_pool_admission.1 _ 7 (by constructor <;> simp [poolThreeActive, maxConnections]),
   c6_pool_admission.2.1 _ (by constructor <;> simp [poolTenOneWaiter, maxConnections]),
   c6_pool_admission.2.2.1 _ 7 (by simp [poolThreeActive, maxConnections]),
   c6_pool_admission.2.2.2.1 10 (by simp [maxConnections]),
   c6_pool_admission.2.2.2.2.1 9 (by simp [maxConnections]),
   c6_pool_admission.2.2.2.2.2.2.1 _ 12 (by simp [poolTenOneWaiter, maxConnections]),
   (c6_pool_admission.2.2.2.2.2.2.2 _ (WaitEntry.wrapper 11) [WaitEntry.wrapper 12] rfl).1⟩

/-! ## Claim C7 -/

/-- C7: after setCachedData(k, v, ttl) at time tset, getCachedData(k, ttl)
at any time tget with tget - tset < ttl returns v, and at any time with
tget - tset >= ttl returns null; the expired miss does not delete the entry
(lazy expiry): getCachedData only reads the map — the source method
contains no delete — so the stored entry is still present under k
afterwards, as the third conjunct records. -/
theorem c7_cache_ttl {V : Type} (cache : CMap V) (k : String) (v : V)
    (ttl tset tget : Nat) :
    ((tget : Int) - (tset : Int) < (ttl : Int) →
      getCachedData (setCachedData cache k v ttl tset) k ttl tget = some v) ∧
    ((ttl : Int) ≤ (tget : Int) - (tset : Int) →
      getCachedData (setCachedData cache k v ttl tset) k ttl tget = none) ∧
    mapGet (setCachedData cache k v ttl tset) k =
      some { data := v, timestamp := tset, ttl := ttl } := by
  have hget := mapGet_mapSet cache k (CacheEntry.mk v tset ttl)
  refine ⟨?_, ?_, hget⟩
  · intro h
    simp [getCachedData, setCachedData, hget, h]
  · intro h
    simp [getCachedData, setCachedData, hget, Int.not_lt.mpr h]

/-- Witness for C7: key chains_u1, value 42, two-minute ttl, a hit one
millisecond before expiry and a miss at expiry. -/
theorem c7_witness :
    getCachedData (setCachedData ([] : CMap Nat) "chains_u1" 42 120000 0)
      "chains_u1" 120000 119999 = some 42 ∧
    getCachedData (setCachedData ([] : CMap Nat) "chains_u1" 42 120000 0)
      "chains_u1" 120000 120000 = none :=
  ⟨(c7_cache_ttl [] "chains_u1" 42 120000 0 119999).1 (by decide),
   (c7_cache_ttl [] "chains_u1" 42 120000 0 120000).2.1 (by decide)⟩

/-! ## Claim C10 -/

/-- C10: flush is a no-op when a previous flush is still processing or the
queue is empty: the state is returned unchanged, no snapshot is taken and
the processor is never called (the empty log).  Consequently a shutdown
issued while a flush is in flight only clears the timer: its final flush
call hits the isProcessing guard, performs no processing, and every
operation that was enqueued during the in-flight flush stays in the queue. -/
theorem c10_flush_noop_guard {T : Type} (cfg : BatchConfig) (succ : Nat → Bool)
    (during : List (BatchOperation T)) (s : BatchState T) :
    (s.isProcessing = true ∨ s.queue = [] →
      flush cfg succ during s = (s, emptyFlushLog T)) ∧
    (s.isProcessing = true →
      shutdown cfg succ s = ({ s with flushTimer := false }, emptyFlushLog T) ∧
      (shutdown cfg succ s).1.queue = s.queue) := by
  constructor
  · intro h
    rcases h with h | h
    · simp [flush, h]
    · simp [flush, h]
  · intro h
    constructor
    · simp [shutdown, flush, h]
    · simp [shutdown, flush, h]

/-- A batch processor state mid-flight: isProcessing set, two operations
enqueued since the in-flight flush took its snapshot. -/
def sMidFlight : BatchState Nat :=
  { queue := [{ id := "x", data := 1, operation := OpKind.update, timestamp := 3 },
              { id := "y", data := 2, operation := OpKind.insert, timestamp := 4 }],
    flushTimer := true, isProcessing := true }

/-- Witness for C10: at the mid-flight state, flush leaves everything
unchanged and shutdown only clears the timer, keeping both queued
operations pending. -/
theorem c10_witness :
    flush DEFAULT_CONFIG (fun _ => true) [] sMidFlight = (sMidFlight, emptyFlushLog Nat) ∧
    shutdown DEFAULT_CONFIG (fun _ => true) sMidFlight =
      ({ sMidFlight with flushTimer := false }, emptyFlushLog Nat) ∧
    (shutdown DEFAULT_CONFIG (fun _ => true) sMidFlight).1.queue = sMidFlight.queue :=
  ⟨(c10_flush_noop_guard DEFAULT_CONFIG (fun _ => true) [] sMidFlight).1 (Or.inl rfl),
   ((c10_flush_noop_guard DEFAULT_CONFIG (fun _ => true) [] sMidFlight).2 rfl).1,
   ((c10_flush_noop_guard DEFAULT_CONFIG (fun _ => true) [] sMidFlight).2 rfl).2⟩

/-! ## Retry-loop lemmas -/

/-- The retry loop makes at most fuel processor calls. -/
theorem retryGo_calls_le (succ : Nat → Bool) (limit : Nat) :
    ∀ fuel a, (retryGo succ limit fuel a).calls ≤ fuel := by
  intro fuel
  induction fuel with
  | zero => intro a; simp [retryGo]
  | succ n ih =>
      intro a
      by_cases h1 : a < limit
      · by_cases h2 : succ a
        · simp [retryGo, h1, h2]
        · by_cases h3 : limit ≤ a + 1
          · simp [retryGo, h1, h2, h3]
          · simpa [retryGo, h1, h2, h3] using Nat.succ_le_succ (ih (a + 1))
      · simp [retryGo, h1]

/-- A successful retry loop never ran the exhaustion branch. -/
theorem retryGo_success_not_exhausted (succ : Nat → Bool) (limit : Nat) :
    ∀ fuel a, (retryGo succ limit fuel a).success = true →
      (retryGo succ limit fuel a).exhausted = false := by
  intro fuel
  induction fuel with
  | zero => intro a h; simp [retryGo]
  | succ n ih =>
      intro a
      by_cases h1 : a < limit
      · by_cases h2 : succ a
        · simp [retryGo, h1, h2]
        · by_cases h3 : limit ≤ a + 1
          · simp [retryGo, h1, h2, h3]
          · simpa [retryGo, h1, h2, h3] using ih (a + 1)
      · simp [retryGo, h1]

/-! ## Queue lemmas for the batch processor -/

/-- The queue produced by an enqueue is never empty. -/
theorem enqueueQueue_ne_nil {T : Type} (q : List (BatchOperation T)) (id : String)
    (v : T) (k : OpKind) (t : Nat) : enqueueQueue q id v k t ≠ [] := by
  simp [enqueueQueue]

/-- After an enqueue for id, the pending operations for id are exactly the
one just enqueued. -/
theorem filter_enqueueQueue {T : Type} (q : List (BatchOperation T)) (id : String)
    (v : T) (k : OpKind) (t : Nat) :
    (enqueueQueue q id v k t).filter (fun op => op.id = id) =
      [{ id := id, data := v, operation := k, timestamp := t }] := by
  have hnil : (q.filter (fun op => op.id ≠ id)).filter (fun op => op.id = id) = [] := by
    rw [List.filter_eq_nil_iff]
    intro a ha
    have hne := List.of_mem_filter ha
    simp at hne ⊢
    exact hne
  simp [enqueueQueue, List.filter_append, hnil]

/-- An enqueue keeps the at-most-one-pending-operation-per-identity bound. -/
theorem countP_enqueueQueue_le {T : Type} (q : List (BatchOperation T)) (id : String)
    (v : T) (k : OpKind) (t : Nat) (j : String)
    (h : q.countP (fun op => op.id = j) ≤ 1) :
    (enqueueQueue q id v k t).countP (fun op => op.id = j) ≤ 1 := by
  by_cases hj : j = id
  · subst hj
    rw [List.countP_eq_length_filter, filter_enqueueQueue]
    simp
  · have hfil : (q.filter (fun op => op.id ≠ id)).countP (fun op => op.id = j) ≤
        q.countP (fun op => op.id = j) := by
      rw [List.countP_filter]
      exact List.countP_mono_left (fun x _ hx => by
        simp only [Bool.and_eq_true] at hx
        exact hx.1)
    have hlast : ([({ id := id, data := v, operation := k, timestamp := t } :
        BatchOperation T)]).countP (fun op => op.id = j) = 0 := by
      simp [Ne.symm hj]
    calc (enqueueQueue q id v k t).countP (fun op => op.id = j)
        = (q.filter (fun op => op.id ≠ id)).countP (fun op => op.id = j) +
          ([({ id := id, data := v, operation := k, timestamp := t } :
            BatchOperation T)]).countP (fun op => op.id = j) := by
          simp [enqueueQueue, List.countP_append]
      _ ≤ 1 := by rw [hlast]; exact Nat.le_trans (by simpa using hfil) h

/-! ## Claim C2 -/

/-- A batch config with the ceiling at two operations, as the constructor
permits through its Partial config parameter. -/
def cfgSmall : BatchConfig := { maxBatchSize := 2, maxWaitTime := 1000, retryAttempts := 3 }

/-- A processor state holding one queued operation and no flush in flight. -/
def sOneQueued : BatchState Nat :=
  { queue := [{ id := "a", data := 0, operation := OpKind.update, timestamp := 0 }],
    flushTimer := true, isProcessing := false }

/-- C2 counterexample: the claim states that addOperation never awaits the
processor call before returning, regardless of the queue size, including
when the batch-size ceiling is reached.  At a concrete input where the
enqueue brings the queue to the ceiling, addOperation awaits flush, and the
processor is invoked before addOperation's promise settles: the call count
observed by the caller is not zero. -/
theorem c2_counterexample_enqueue_awaits_processor :
    (addOperation cfgSmall (fun _ => true) "b" (5 : Nat) OpKind.update 1 sOneQueued).2.calls ≠ 0 := by
  decide

/-- C2 amended: addOperation only mutates the in-memory queue and arms the
flush timer — performing no processor call — whenever the post-insert queue
length stays below maxBatchSize; when the insert brings the queue length to
maxBatchSize, addOperation instead awaits flush, and hence possibly the
processor call, before returning. -/
theorem c2_enqueue_nonblocking_below_ceiling {T : Type} (cfg : BatchConfig)
    (succ : Nat → Bool) (id : String) (data : T) (op : OpKind) (now : Nat)
    (s : BatchState T) :
    ((enqueueQueue s.queue id data op now).length < cfg.maxBatchSize →
      addOperation cfg succ id data op now s =
        ({ queue := enqueueQueue s.queue id data op now, flushTimer := true,
           isProcessing := s.isProcessing }, emptyFlushLog T)) ∧
    (cfg.maxBatchSize ≤ (enqueueQueue s.queue id data op now).length →
      addOperation cfg succ id data op now s =
        flush cfg succ [] { s with queue := enqueueQueue s.queue id data op now }) := by
  constructor
  · intro h
    simp [addOperation, not_le.mpr h]
  · intro h
    simp [addOperation, h]

/-- Witness for C2: a below-ceiling enqueue on the empty processor only
queues and arms the timer; the at-ceiling enqueue of the counterexample is
the flush call. -/
theorem c2_witness :
    (addOperation cfgSmall (fun _ => true) "a" (7 : Nat) OpKind.insert 0
        { queue := [], flushTimer := false, isProcessing := false } =
      ({ queue := enqueueQueue [] "a" 7 OpKind.insert 0, flushTimer := true,
         isProcessing := false }, emptyFlushLog Nat)) ∧
    (addOperation cfgSmall (fun _ => true) "b" (5 : Nat) OpKind.update 1 sOneQueued =
      flush cfgSmall (fun _ => true) []
        { sOneQueued with queue := enqueueQueue sOneQueued.queue "b" 5 OpKind.update 1 }) :=
  ⟨(c2_enqueue_nonblocking_below_ceiling cfgSmall (fun _ => true) "a" 7 OpKind.insert 0
      { queue := [], flushTimer := false, isProcessing := false }).1 (by decide),
   (c2_enqueue_nonblocking_below_ceiling cfgSmall (fun _ => true) "b" 5 OpKind.update 1
      sOneQueued).2 (by decide)⟩

/-! ## Claim C3 -/

/-- Two successive enqueues for the same identity on top of queue q. -/
def doubleEnqueued {T : Type} (q : List (BatchOperation T)) (id : String) (v1 v2 : T)
    (k1 k2 : OpKind) (t1 t2 : Nat) : List (BatchOperation T) :=
  enqueueQueue (enqueueQueue q id v1 k1 t1) id v2 k2 t2

/-- A processor state with the given queue and timer flag and no flush in
flight. -/
def idleState {T : Type} (q : List (BatchOperation T)) (ft : Bool) : BatchState T :=
  { queue := q, flushTimer := ft, isProcessing := false }

/-- C3: the pending queue holds at most one operation per identity (an
enqueue preserves the bound for every identity), a later enqueue for an
already-pending identity replaces the earlier one entirely, and the next
flush's snapshot after enqueue(id, v1) then enqueue(id, v2) contains
exactly one operation for id, with payload v2. -/
theorem c3_last_write_wins {T : Type} (q : List (BatchOperation T)) (id : String)
    (v1 v2 : T) (k1 k2 : OpKind) (t1 t2 : Nat) (cfg : BatchConfig)
    (succ : Nat → Bool) (during : List (BatchOperation T)) (ft : Bool) :
    (∀ (v : T) (k : OpKind) (t : Nat) (j : String),
      q.countP (fun op => op.id = j) ≤ 1 →
      (enqueueQueue q id v k t).countP (fun op => op.id = j) ≤ 1) ∧
    ((doubleEnqueued q id v1 v2 k1 k2 t1 t2).filter (fun op => op.id = id) =
      [{ id := id, data := v2, operation := k2, timestamp := t2 }]) ∧
    (((flush cfg succ during
          (idleState (doubleEnqueued q id v1 v2 k1 k2 t1 t2) ft)).2.snapshot.getD []).filter
        (fun op => op.id = id) =
      [{ id := id, data := v2, operation := k2, timestamp := t2 }]) := by
  have hfilter := filter_enqueueQueue (enqueueQueue q id v1 k1 t1) id v2 k2 t2
  refine ⟨fun v k t j h => countP_enqueueQueue_le q id v k t j h, hfilter, ?_⟩
  have hne : doubleEnqueued q id v1 v2 k1 k2 t1 t2 ≠ [] :=
    enqueueQueue_ne_nil (enqueueQueue q id v1 k1 t1) id v2 k2 t2
  have hempty : (doubleEnqueued q id v1 v2 k1 k2 t1 t2).isEmpty = false :=
    List.isEmpty_eq_false.mpr hne
  simp only [flush, idleState, hempty]
  simpa [doubleEnqueued] using hfilter

/-- Witness for C3 at a concrete double enqueue for identity id1. -/
theorem c3_witness :
    (enqueueQueue [] "id1" (9 : Nat) OpKind.update 0).countP (fun op => op.id = "z") ≤ 1 ∧
    ((doubleEnqueued ([] : List (BatchOperation Nat)) "id1" 1 2 OpKind.update OpKind.update
        0 1).filter (fun op => op.id = "id1") =
      [{ id := "id1", data := 2, operation := OpKind.update, timestamp := 1 }]) ∧
    (((flush DEFAULT_CONFIG (fun _ => true) []
          (idleState (doubleEnqueued ([] : List (BatchOperation Nat)) "id1" 1 2
            OpKind.update OpKind.update 0 1) false)).2.snapshot.getD []).filter
        (fun op => op.id = "id1") =
      [{ id := "id1", data := 2, operation := OpKind.update, timestamp := 1 }]) :=
  ⟨(c3_last_write_wins [] "id1" 1 2 OpKind.update OpKind.update 0 1 DEFAULT_CONFIG
      (fun _ => true) [] false).1 9 OpKind.update 0 "z" (by decide),
   (c3_last_write_wins [] "id1" 1 2 OpKind.update OpKind.update 0 1 DEFAULT_CONFIG
      (fun _ => true) [] false).2.1,
   (c3_last_write_wins [] "id1" 1 2 OpKind.update OpKind.update 0 1 DEFAULT_CONFIG
      (fun _ => true) [] false).2.2⟩

/-- A flush on an idle processor with a non-empty queue snapshots exactly
that queue. -/
theorem flush_snapshot_of_idle {T : Type} (cfg : BatchConfig) (succ : Nat → Bool)
    (during : List (BatchOperation T)) (s : BatchState T)
    (hp : s.isProcessing = false) (hq : s.queue ≠ []) :
    (flush cfg succ during s).2.snapshot = some s.queue := by
  simp [flush, hp, List.isEmpty_eq_false.mpr hq]

/-! ## Claim C4 -/

/-- C4: a flush takes the current queue as its snapshot and clears it, so
the operations enqueued during the flush (the during parameter) form the
queue of the next batch: on a successful flush the new queue is exactly the
during-operations, on an exhausted flush it is the failed snapshot in front
of them, and in either case a subsequent flush processes exactly that fresh
queue as its own snapshot — no pending operation is lost and no operation
appears in two flush snapshots. -/
theorem c4_flush_snapshot_fresh_batch {T : Type} (cfg : BatchConfig)
    (succ succ2 : Nat → Bool) (during : List (BatchOperation T)) (s : BatchState T)
    (hp : s.isProcessing = false) (hq : s.queue ≠ []) :
    ((flush cfg succ during s).2.snapshot = some s.queue) ∧
    ((flush cfg succ during s).1.queue =
      if (runRetries succ cfg.retryAttempts).exhausted then s.queue ++ during
      else during) ∧
    ((runRetries succ cfg.retryAttempts).success = true →
      (flush cfg succ during s).1.queue = during) ∧
    ((flush cfg succ during s).1.isProcessing = false) ∧
    (during ≠ [] →
      (flush cfg succ2 [] (flush cfg succ during s).1).2.snapshot =
        some ((flush cfg succ during s).1.queue)) := by
  have hempty : s.queue.isEmpty = false := List.isEmpty_eq_false.mpr hq
  have h2 : (flush cfg succ during s).1.queue =
      if (runRetries succ cfg.retryAttempts).exhausted then s.queue ++ during
      else during := by
    simp [flush, hp, hempty]
  refine ⟨flush_snapshot_of_idle cfg succ during s hp hq, h2, ?_,
    by simp [flush, hp, hempty], ?_⟩
  · intro hs
    have hex : (runRetries succ cfg.retryAttempts).exhausted = false :=
      retryGo_success_not_exhausted succ cfg.retryAttempts cfg.retryAttempts 0 hs
    rw [h2, hex]
    simp
  · intro hd
    have hq1 : (flush cfg succ during s).1.queue ≠ [] := by
      rw [h2]
      by_cases he : (runRetries succ cfg.retryAttempts).exhausted <;>
        simp [he, hd, List.append_ne_nil_of_left_ne_nil hq]
    have hp1 : (flush cfg succ during s).1.isProcessing = false := by
      simp [flush, hp, hempty]
    exact flush_snapshot_of_idle cfg succ2 [] _ hp1 hq1

/-- The operations enqueued while the C4 witness flush is in flight. -/
def duringC4 : List (BatchOperation Nat) :=
  [{ id := "d", data := 9, operation := OpKind.insert, timestamp := 8 }]

/-- Witness for C4 at the one-element queue with one operation enqueued
during a successful flush. -/
theorem c4_witness :
    ((flush DEFAULT_CONFIG (fun _ => true) duringC4 sOneQueued).2.snapshot =
      some sOneQueued.queue) ∧
    ((flush DEFAULT_CONFIG (fun _ => true) duringC4 sOneQueued).1.queue =
      if (runRetries (fun _ => true) DEFAULT_CONFIG.retryAttempts).exhausted then
        sOneQueued.queue ++ duringC4
      else duringC4) ∧
    ((flush DEFAULT_CONFIG (fun _ => true) duringC4 sOneQueued).1.queue = duringC4) ∧
    ((flush DEFAULT_CONFIG (fun _ => true) duringC4 sOneQueued).1.isProcessing = false) ∧
    ((flush DEFAULT_CONFIG (fun _ => true) [] (flush DEFAULT_CONFIG (fun _ => true)
        duringC4 sOneQueued).1).2.snapshot =
      some ((flush DEFAULT_CONFIG (fun _ => true) duringC4 sOneQueued).1.queue)) :=
  have H := c4_flush_snapshot_fresh_batch DEFAULT_CONFIG (fun _ => true) (fun _ => true)
    duringC4 sOneQueued rfl (by decide)
  ⟨H.1, H.2.1, H.2.2.1 (by decide), H.2.2.2.1, H.2.2.2.2 (by decide)⟩

/-! ## Claim C5 -/

/-- C5 counterexample: the claim states that when all flush attempts fail,
the failure is reported to the caller via an error callback.  The source
has no error callback — the BatchProcessor constructor takes only the
processor and the config — and flush catches every processor error inside
its retry loop and resolves normally, so the caller receives no error
(callerError is none); the only report is the console.error log, and the
operations are re-queued.  Evaluated at a concrete all-attempts-fail
flush. -/
theorem c5_counterexample_no_caller_callback :
    (flush DEFAULT_CONFIG (fun _ => false) [] sOneQueued).2.callerError = none ∧
    (flush DEFAULT_CONFIG (fun _ => false) [] sOneQueued).2.consoleErrors = 1 ∧
    (flush DEFAULT_CONFIG (fun _ => false) [] sOneQueued).2.requeued = true := by
  decide

/-- C5 amended: a failed flush retries the same snapshot up to the attempt
ceiling 3, sleeping 2 ^ attempt seconds between attempts: with failures on
attempts 1 and 2 and success on attempt 3 there are three processor calls
of which exactly one succeeds, backoff delays of 2000 ms and 4000 ms, and
no lost operations; when all attempts fail, the snapshot's operations are
pushed back to the front of the live queue rather than dropped and the
failure is reported via a console error log — the caller is not notified
through an error callback (the flush promise resolves normally,
callerError none). -/
theorem c5_retry_backoff_requeue {T : Type} (ops during : List (BatchOperation T))
    (ft : Bool) (succ : Nat → Bool) (h : ops ≠ []) :
    ((runRetries succ DEFAULT_CONFIG.retryAttempts).calls ≤ DEFAULT_CONFIG.retryAttempts) ∧
    (runRetries (fun i => i == 2) DEFAULT_CONFIG.retryAttempts =
      { calls := 3, delays := [2000, 4000], success := true, exhausted := false }) ∧
    ((List.range 3).countP (fun i => i == 2) = 1) ∧
    (flush DEFAULT_CONFIG (fun i => i == 2) during (idleState ops ft) =
      ({ queue := during, flushTimer := false, isProcessing := false },
       { snapshot := some ops, calls := 3, delays := [2000, 4000], requeued := false,
         consoleErrors := 0, callerError := none })) ∧
    (flush DEFAULT_CONFIG (fun _ => false) during (idleState ops ft) =
      ({ queue := ops ++ during, flushTimer := false, isProcessing := false },
       { snapshot := some ops, calls := 3, delays := [2000, 4000], requeued := true,
         consoleErrors := 1, callerError := none })) := by
  have hempty : ops.isEmpty = false := List.isEmpty_eq_false.mpr h
  have hr1 : runRetries (fun i => i == 2) DEFAULT_CONFIG.retryAttempts =
      { calls := 3, delays := [2000, 4000], success := true, exhausted := false } := by
    decide
  have hr2 : runRetries (fun _ : Nat => false) DEFAULT_CONFIG.retryAttempts =
      { calls := 3, delays := [2000, 4000], success := false, exhausted := true } := by
    decide
  refine ⟨retryGo_calls_le succ DEFAULT_CONFIG.retryAttempts DEFAULT_CONFIG.retryAttempts 0,
    hr1, by decide, ?_, ?_⟩
  · simp [flush, idleState, hempty, hr1]
  · simp [flush, idleState, hempty, hr2]

/-- Witness for C5 at the one-element snapshot with nothing enqueued during
the flush. -/
theorem c5_witness :
    ((runRetries (fun _ => true) DEFAULT_CONFIG.retryAttempts).calls ≤
      DEFAULT_CONFIG.retryAttempts) ∧
    (runRetries (fun i => i == 2) DEFAULT_CONFIG.retryAttempts =
      { calls := 3, delays := [2000, 4000], success := true, exhausted := false }) ∧
    ((List.range 3).countP (fun i => i == 2) = 1) ∧
    (flush DEFAULT_CONFIG (fun i => i == 2) [] (idleState sOneQueued.queue true) =
      ({ queue := [], flushTimer := false, isProcessing := false },
       { snapshot := some sOneQueued.queue, calls := 3, delays := [2000, 4000],
         requeued := false, consoleErrors := 0, callerError := none })) ∧
    (flush DEFAULT_CONFIG (fun _ => false) [] (idleState sOneQueued.queue true) =
      ({ queue := sOneQueued.queue ++ [], flushTimer := false, isProcessing := false },
       { snapshot := some sOneQueued.queue, calls := 3, delays := [2000, 4000],
         requeued := true, consoleErrors := 1, callerError := none })) :=
  c5_retry_backoff_requeue sOneQueued.queue [] true (fun _ => true) (by decide)

/-! ## Map lemmas for the debouncer -/

/-- Writing under key k does not change the number of entries under a
different key. -/
theorem countP_mapSet_ne {κ α : Type} [DecidableEq κ] (m : List (κ × α)) (k k2 : κ)
    (v : α) (hk : k ≠ k2) :
    (mapSet m k v).countP (fun p => p.1 = k2) = m.countP (fun p => p.1 = k2) := by
  induction m with
  | nil => simp [mapSet, List.countP_cons, hk]
  | cons hd tl ih =>
      obtain ⟨k0, v0⟩ := hd
      by_cases h0 : k0 = k
      · subst h0
        simp [mapSet, List.countP_cons]
      · simp [mapSet, h0, List.countP_cons, ih]

/-- The number of entries under k after writing under k is at most one more
than before (it is one when none existed, unchanged otherwise). -/
theorem countP_mapSet_self {κ α : Type} [DecidableEq κ] (m : List (κ × α)) (k : κ)
    (v : α) :
    (mapSet m k v).countP (fun p => p.1 = k) ≤ max 1 (m.countP (fun p => p.1 = k)) := by
  induction m with
  | nil => simp [mapSet, List.countP_cons]
  | cons hd tl ih =>
      obtain ⟨k0, v0⟩ := hd
      by_cases h0 : k0 = k
      · subst h0
        simp [mapSet, List.countP_cons]
      · simp only [mapSet, if_neg h0, List.countP_cons, h0, decide_eq_true_eq,
          if_false]
        have := ih
        omega

/-- Map.set keeps the at-most-one-entry-per-key bound. -/
theorem countP_mapSet_le {κ α : Type} [DecidableEq κ] (m : List (κ × α)) (k k2 : κ)
    (v : α) (h : m.countP (fun p => p.1 = k2) ≤ 1) :
    (mapSet m k v).countP (fun p => p.1 = k2) ≤ 1 := by
  by_cases hk : k = k2
  · subst hk
    have := countP_mapSet_self m k v
    omega
  · rw [countP_mapSet_ne m k k2 v hk]
    exact h

/-! ## Claim C8 -/

/-- The debouncer after queue(c, A) then queue(c, B), with the setTimeout
handles tid1 and tid2 armed by the two calls. -/
def doubleQueued (D : Type) (c : StorageOpType) (A B : D) (t1 t2 tid1 tid2 : Nat) :
    DebouncerState D :=
  queueOperation (queueOperation (initDebouncer D) c A t1 tid1) c B t2 tid2

/-- C8: the debounced dispatcher keeps at most one pending entry per
category (queueOperation preserves the bound for every category); after
queue(c, A) then queue(c, B) within the delay window, the pending entry for
c carries payload B, only the second timer is armed and the first is
cancelled, the cancelled timer dispatches nothing, the armed timer fires
exactly one dispatch with payload B, and firing again dispatches nothing
more. -/
theorem c8_debounce_coalesce {D : Type} (c : StorageOpType) (A B : D)
    (t1 t2 tid1 tid2 : Nat) (hne : tid1 ≠ tid2) :
    (∀ (s : DebouncerState D) (ty : StorageOpType) (dat : D) (n tid : Nat)
      (ty2 : StorageOpType),
      s.operations.countP (fun p => p.1 = ty2) ≤ 1 →
      (queueOperation s ty dat n tid).operations.countP (fun p => p.1 = ty2) ≤ 1) ∧
    (mapGet (doubleQueued D c A B t1 t2 tid1 tid2).operations c =
      some { type := c, data := B, timestamp := t2 }) ∧
    (mapGet (doubleQueued D c A B t1 t2 tid1 tid2).timers c = some tid2) ∧
    (tid1 ∈ (doubleQueued D c A B t1 t2 tid1 tid2).cancelled) ∧
    (fireTimer (doubleQueued D c A B t1 t2 tid1 tid2) c tid1 =
      doubleQueued D c A B t1 t2 tid1 tid2) ∧
    ((fireTimer (doubleQueued D c A B t1 t2 tid1 tid2) c tid2).dispatched = [(c, B)]) ∧
    (fireTimer (fireTimer (doubleQueued D c A B t1 t2 tid1 tid2) c tid2) c tid2 =
      fireTimer (doubleQueued D c A B t1 t2 tid1 tid2) c tid2) := by
  have hdq : doubleQueued D c A B t1 t2 tid1 tid2 =
      { operations := [(c, { type := c, data := B, timestamp := t2 })],
        timers := [(c, tid2)], cancelled := [tid1], dispatched := [] } := by
    simp [doubleQueued, queueOperation, initDebouncer, mapSet, mapGet]
  have hne2 : tid2 ≠ tid1 := Ne.symm hne
  refine ⟨?_, ?_, ?_, ?_, ?_, ?_, ?_⟩
  · intro s ty dat n tid ty2 h
    simp only [queueOperation]
    exact countP_mapSet_le s.operations ty ty2 _ h
  · rw [hdq]; simp [mapGet]
  · rw [hdq]; simp [mapGet]
  · rw [hdq]; simp
  · rw [hdq]; simp [fireTimer]
  · rw [hdq]; simp [fireTimer, hne2, executeOperation, mapGet, mapDelete]
  · rw [hdq]; simp [fireTimer, hne2, executeOperation, mapGet, mapDelete]

/-- Witness for C8: category history, payloads 1 then 2, timers 1 and 2. -/
theorem c8_witness :
    ((queueOperation (initDebouncer Nat) StorageOpType.chains 3 0 7).operations.countP
      (fun p => p.1 = StorageOpType.chains) ≤ 1) ∧
    (mapGet (doubleQueued Nat StorageOpType.history 1 2 0 5 1 2).operations
      StorageOpType.history =
      some { type := StorageOpType.history, data := 2, timestamp := 5 }) ∧
    (mapGet (doubleQueued Nat StorageOpType.history 1 2 0 5 1 2).timers
      StorageOpType.history = some 2) ∧
    (1 ∈ (doubleQueued Nat StorageOpType.history 1 2 0 5 1 2).cancelled) ∧
    (fireTimer (doubleQueued Nat StorageOpType.history 1 2 0 5 1 2)
      StorageOpType.history 1 = doubleQueued Nat StorageOpType.history 1 2 0 5 1 2) ∧
    ((fireTimer (doubleQueued Nat StorageOpType.history 1 2 0 5 1 2)
      StorageOpType.history 2).dispatched = [(StorageOpType.history, 2)]) ∧
    (fireTimer (fireTimer (doubleQueued Nat StorageOpType.history 1 2 0 5 1 2)
        StorageOpType.history 2) StorageOpType.history 2 =
      fireTimer (doubleQueued Nat StorageOpType.history 1 2 0 5 1 2)
        StorageOpType.history 2) :=
  have H := c8_debounce_coalesce StorageOpType.history (1 : Nat) 2 0 5 1 2 (by decide)
  ⟨H.1 (initDebouncer Nat) StorageOpType.chains 3 0 7 StorageOpType.chains (by decide),
   H.2.1, H.2.2.1, H.2.2.2.1, H.2.2.2.2.1, H.2.2.2.2.2.1, H.2.2.2.2.2.2⟩

/-! ## Claim C9 -/

/-- C9 counterexample: the claim states that a StoreError arising during
getChains or getCompletionHistory is passed through to the caller.  The
source instead logs the error with console.error and returns the empty
list: at a concrete failing query the caller receives [] with no error
channel — indistinguishable from a successful empty query — and only the
console flag records the failure. -/
theorem c9_counterexample_error_swallowed :
    (getChains (fun l : List Nat => l) (some "u1") ([] : CMap (List Nat)) 0
      (Except.error { message := "db down" })).1 = [] ∧
    (getChains (fun l : List Nat => l) (some "u1") ([] : CMap (List Nat)) 0
      (Except.error { message := "db down" })).2.2 = true ∧
    ((getChains (fun l : List Nat => l) (some "u1") ([] : CMap (List Nat)) 0
        (Except.error { message := "db down" })).1 =
      (getChains (fun l : List Nat => l) (some "u1") ([] : CMap (List Nat)) 0
        (Except.ok [])).1) ∧
    (getCompletionHistory (fun l : List Nat => l) (some "u1") 1000 0
      ([] : CMap (List Nat)) 0 (Except.error { message := "db down" })).1 = [] ∧
    (getCompletionHistory (fun l : List Nat => l) (some "u1") 1000 0
      ([] : CMap (List Nat)) 0 (Except.error { message := "db down" })).2.2 = true := by
  decide

/-- C9 amended: when the store query of getChains or getCompletionHistory
fails (on a cache miss for the respective key), the error is logged via
console.error and the call returns the empty list with the cache untouched;
the StoreError is not propagated to the caller. -/
theorem c9_error_logged_empty_result {R X : Type} (transform : List R → List X)
    (uid : String) (cache : CMap (List X)) (now : Nat) (e : StoreError)
    (limit offset : Nat)
    (h1 : getCachedData cache ("chains_" ++ uid) (2 * 60 * 1000) now = none)
    (h2 : getCachedData cache
      ("history_" ++ uid ++ "_" ++ toString limit ++ "_" ++ toString offset)
      (5 * 60 * 1000) now = none) :
    getChains transform (some uid) cache now (Except.error e) = ([], cache, true) ∧
    getCompletionHistory transform (some uid) limit offset cache now
      (Except.error e) = ([], cache, true) := by
  constructor
  · simp [getChains, h1, readQueryStep]
  · simp [getCompletionHistory, h2, readQueryStep]

/-- Witness for C9 on the empty cache for user u1. -/
theorem c9_witness :
    getChains (fun l : List Nat => l) (some "u1") ([] : CMap (List Nat)) 0
      (Except.error { message := "boom" }) = ([], [], true) ∧
    getCompletionHistory (fun l : List Nat => l) (some "u1") 1000 0
      ([] : CMap (List Nat)) 0 (Except.error { message := "boom" }) = ([], [], true) :=
  c9_error_logged_empty_result (fun l : List Nat => l) "u1" [] 0
    { message := "boom" } 1000 0 rfl rfl

end RC
